import Mathlib

/-
Verification of the scope-driven parameter sharing module
(caffe2/python/modeling/parameter_sharing.py) against its design notes.

The module is embedded shallowly: the namescope separator is the fixed
character used by the external scope module, strings are handled through
their character lists so that every definition evaluates by kernel
reduction, the override dictionary is an association list with Python
dict insert/update semantics, and the possibly non-terminating recursive
resolver is given an explicit fuel parameter (fuel exhaustion is `none`).
-/

/-- The namescope separator of the external scope collaborator
(`scope._NAMESCOPE_SEPARATOR`); the design notes and all examples fix it
to the slash character. -/
def NAMESCOPE_SEPARATOR : Char := '/'

/-- The separator as a one-character string, used where the Python code
concatenates `scope._NAMESCOPE_SEPARATOR` onto a string. -/
def sep_string : String := "/"

/-- Python `s.split(sep)` for a one-character separator, on character
lists: splitting the empty string yields `[[]]`, and a trailing
separator yields a trailing empty group, exactly as in Python. -/
def split_chars : List Char → List (List Char)
  | [] => [[]]
  | c :: rest =>
    if c = NAMESCOPE_SEPARATOR then [] :: split_chars rest
    else
      match split_chars rest with
      | [] => [[c]]
      | g :: gs => (c :: g) :: gs

/-- `candidate_scope.split(scope._NAMESCOPE_SEPARATOR)` from
`_resolve_scope_overrides`. -/
def split_scope (s : String) : List String :=
  (split_chars s.toList).map String.mk

/-- Python `scope._NAMESCOPE_SEPARATOR.join(l)`. -/
def join_scopes : List String → String
  | [] => ""
  | [s] => s
  | s :: rest => s ++ sep_string ++ join_scopes rest

/-- Character-list core of Python `s.startswith(p)`. -/
def starts_with_chars : List Char → List Char → Bool
  | _, [] => true
  | [], _ :: _ => false
  | c :: cs, p :: ps => c = p && starts_with_chars cs ps

/-- Python `s.startswith(p)`: `p` is a literal prefix of `s`. -/
def starts_with (s p : String) : Bool :=
  starts_with_chars s.toList p.toList

/-- The override dictionary `self._scope_overrides`: an association list
with unique keys, read and written with Python dict semantics. -/
abbrev OverrideMap := List (String × String)

/-- Python `k in d` / `d[k]` combined: the value stored at `k`, if any. -/
def dict_lookup (m : OverrideMap) (k : String) : Option String :=
  match m with
  | [] => none
  | (k', v) :: rest => if k' = k then some v else dict_lookup rest k

/-- Python `d[k] = v`: replace the value at an existing key in place, or
append a fresh key at the end (insertion order semantics). -/
def dict_insert (m : OverrideMap) (k v : String) : OverrideMap :=
  match m with
  | [] => [(k, v)]
  | (k', v') :: rest =>
    if k' = k then (k, v) :: rest else (k', v') :: dict_insert rest k v

/-- Python `d.update(e)`: fold the entries of `e` into `d`, entries of
`e` overwriting same-key entries of `d`. -/
def dict_update (m : OverrideMap) (entries : OverrideMap) : OverrideMap :=
  entries.foldl (fun acc p => dict_insert acc p.1 p.2) m

/-- The scan loop of `_resolve_scope_overrides`: walk `sub_scopes` left
to right carrying the running prefix `cur` and the enumeration index
`idx`; on a dictionary hit remember the mapped target as `best` and the
index as `best_idx` (later hits overwrite earlier ones). Returns the
final `(best_scope, best_scope_idx)` pair. -/
def scan_overrides (m : OverrideMap) :
    List String → String → Nat → String → Nat → String × Nat
  | [], _, _, best, best_idx => (best, best_idx)
  | s :: rest, cur, idx, best, best_idx =>
    let cur' := cur ++ s ++ sep_string
    match dict_lookup m cur' with
    | some tgt => scan_overrides m rest cur' (idx + 1) tgt idx
    | none => scan_overrides m rest cur' (idx + 1) best best_idx

/-- `ParameterSharingContext._resolve_scope_overrides`, with an explicit
fuel bound on the recursion depth: `none` means the Python recursion has
not terminated within `fuel` nested calls. With fuel left, split the
candidate, scan for the best (deepest) override point; if none was found
the candidate itself is returned, otherwise the target is recursively
resolved and the unconsumed suffix (segments after the override point,
re-joined with the separator) is appended. -/
def resolve_scope_overrides (m : OverrideMap) : Nat → String → Option String
  | 0, _ => none
  | fuel + 1, candidate_scope =>
    let sub_scopes := split_scope candidate_scope
    let best := scan_overrides m sub_scopes "" 0 candidate_scope 0
    if best.1 = candidate_scope then some candidate_scope
    else
      (resolve_scope_overrides m fuel best.1).map
        (fun r => r ++ join_scopes (sub_scopes.drop (best.2 + 1)))

/-- The resolver, as a relation: the Python call
`_resolve_scope_overrides(candidate)` terminates with `result` exactly
when some recursion depth suffices. -/
def Resolves (m : OverrideMap) (candidate result : String) : Prop :=
  ∃ fuel, resolve_scope_overrides m fuel candidate = some result

/-- `ParameterSharingContext.get_parameter_name`, with the current
namescope (read in Python from the external `scope.CurrentNameScope()`)
passed explicitly, and the same fuel bound as the resolver. -/
def get_parameter_name (m : OverrideMap) (fuel : Nat)
    (current_name_scope name : String) : Option String :=
  (resolve_scope_overrides m fuel current_name_scope).map
    (fun best_scope => best_scope ++ name)

/-- `get_parameter_name`, as a relation: the call terminates with
`result` exactly when some recursion depth suffices. -/
def ReturnsParameterName (m : OverrideMap)
    (current_name_scope name result : String) : Prop :=
  ∃ fuel, get_parameter_name m fuel current_name_scope name = some result

/-- `_normalize_namescope`: append a trailing separator unless the
namescope is empty or already ends with one. -/
def normalize_namescope (namescope : String) : String :=
  if namescope = "" then namescope
  else if namescope.toList.getLast? = some NAMESCOPE_SEPARATOR then namescope
  else namescope ++ sep_string

/-- The mutable state of `ParameterSharingContext`: the live override
dictionary and the stack of per-declaration rule sets (outermost
first). -/
structure ParameterSharingContext where
  scope_overrides : OverrideMap
  contexts : List OverrideMap
deriving DecidableEq

/-- The context with no overrides, as built by `__init__`. -/
def empty_ctx : ParameterSharingContext :=
  { scope_overrides := [], contexts := [] }

/-- `add_scope_overrides`: append the rule set to the context stack and
merge it into the live dictionary. -/
def add_scope_overrides (s : ParameterSharingContext)
    (shared_scopes : OverrideMap) : ParameterSharingContext :=
  { contexts := s.contexts ++ [shared_scopes],
    scope_overrides := dict_update s.scope_overrides shared_scopes }

/-- The faults `pop` can raise: the `assert len(self._contexts) > 0`
failure on an empty stack, and the `TypeError` from the dictionary
rebuild (see `dict_of_frames`). -/
inductive PopFault where
  | preconditionFault
  | typeFault
deriving DecidableEq

/-- The rebuild expression in `pop`:
`dict(*itertools.chain([x.items() for x in self._contexts]))`.
`itertools.chain` is applied to the one-element argument list, so the
chain yields each frame of `self._contexts` as a separate positional
argument to `dict`; `dict` accepts at most one positional argument, so
with two or more remaining frames the call raises `TypeError` (`none`
here), with one frame it copies that frame, and with none it builds the
empty dictionary. -/
def dict_of_frames : List OverrideMap → Option OverrideMap
  | [] => some []
  | [c] => some (dict_update [] c)
  | _ :: _ :: _ => none

/-- `pop`: fault on an empty stack leaving the state unchanged;
otherwise drop the top (last) frame, then attempt the dictionary
rebuild. When the rebuild raises (two or more frames remain), the frame
is already gone from the stack but the live dictionary is left stale. -/
def pop (s : ParameterSharingContext) :
    Option PopFault × ParameterSharingContext :=
  match s.contexts with
  | [] => (some PopFault.preconditionFault, s)
  | _ :: _ =>
    let remaining := s.contexts.dropLast
    match dict_of_frames remaining with
    | some m => (none, { scope_overrides := m, contexts := remaining })
    | none => (some PopFault.typeFault, { s with contexts := remaining })

/-- The validation/qualification loop of `ParameterSharing`: for each
rule `(k, v)` of `shared_scopes`, fault (Python `assert not
v.startswith(k)`) when the target starts with the alias, else qualify
both names with the current scope, normalize them, and store the pair.
`none` models the AssertionError: the loop aborts and nothing is ever
pushed. -/
def build_scope_overrides (current_scope : String) :
    List (String × String) → OverrideMap → Option OverrideMap
  | [], acc => some acc
  | (k, v) :: rest, acc =>
    if starts_with v k then none
    else
      build_scope_overrides current_scope rest
        (dict_insert acc (normalize_namescope (current_scope ++ k))
          (normalize_namescope (current_scope ++ v)))

/-- Entry into the `ParameterSharing` context manager: build the
qualified rule set; on validation fault (`none`) the state is untouched
and nothing is registered, otherwise the set is pushed via
`add_scope_overrides`. -/
def ParameterSharing_enter (current_scope : String)
    (shared_scopes : List (String × String))
    (s : ParameterSharingContext) : Option ParameterSharingContext :=
  match build_scope_overrides current_scope shared_scopes [] with
  | none => none
  | some f => some (add_scope_overrides s f)

/-- The running prefixes `cur_scope` takes in the scan loop of
`_resolve_scope_overrides`, starting from `cur`. -/
def scanned_prefixes (cur : String) : List String → List String
  | [] => []
  | s :: rest =>
    (cur ++ s ++ sep_string) :: scanned_prefixes (cur ++ s ++ sep_string) rest

/-- Union of a list of stack frames, outermost first, later frames
overwriting same-key entries of earlier ones. -/
def union_of_frames (frames : List OverrideMap) : OverrideMap :=
  frames.foldl dict_update []

/-- One unfolding of the resolver at positive fuel. -/
theorem resolve_step (m : OverrideMap) (n : Nat) (c : String) :
    resolve_scope_overrides m (n + 1) c =
      if (scan_overrides m (split_scope c) "" 0 c 0).1 = c then some c
      else
        (resolve_scope_overrides m n
            ((scan_overrides m (split_scope c) "" 0 c 0).1)).map
          (fun r =>
            r ++ join_scopes
              ((split_scope c).drop
                ((scan_overrides m (split_scope c) "" 0 c 0).2 + 1))) := rfl

/-- Adding fuel cannot change a result the resolver already produced. -/
theorem resolve_mono (m : OverrideMap) :
    ∀ (n : Nat) (c r : String), resolve_scope_overrides m n c = some r →
      resolve_scope_overrides m (n + 1) c = some r := by
  intro n
  induction n with
  | zero => intro c r h; simp [resolve_scope_overrides] at h
  | succ k ih =>
    intro c r h
    rw [resolve_step m k c] at h
    rw [resolve_step m (k + 1) c]
    by_cases hb : (scan_overrides m (split_scope c) "" 0 c 0).1 = c
    · rw [if_pos hb] at h ⊢; exact h
    · rw [if_neg hb] at h ⊢
      rcases Option.map_eq_some'.1 h with ⟨r', hr', hout⟩
      rw [ih _ _ hr']
      simpa using hout

/-- Adding any amount of fuel cannot change a produced result. -/
theorem resolve_mono_le (m : OverrideMap) {n n' : Nat} (h : n ≤ n')
    {c r : String} (hr : resolve_scope_overrides m n c = some r) :
    resolve_scope_overrides m n' c = some r := by
  induction n' with
  | zero => cases Nat.le_zero.1 h; exact hr
  | succ k ih =>
    rcases Nat.lt_or_ge n (k + 1) with hlt | hge
    · exact resolve_mono m k c r (ih (Nat.lt_succ_iff.1 hlt))
    · cases Nat.le_antisymm h hge; exact hr

/-- The resolver is a partial function: at most one result per
candidate. -/
theorem resolves_det {m : OverrideMap} {c r₁ r₂ : String}
    (h₁ : Resolves m c r₁) (h₂ : Resolves m c r₂) : r₁ = r₂ := by
  rcases h₁ with ⟨n₁, h₁⟩
  rcases h₂ with ⟨n₂, h₂⟩
  have e₁ := resolve_mono_le m (Nat.le_max_left n₁ n₂) h₁
  have e₂ := resolve_mono_le m (Nat.le_max_right n₁ n₂) h₂
  rw [e₁] at e₂
  exact (Option.some.injEq _ _ ▸ e₂)

/-- The two-hop cyclic override mapping of the design notes. -/
def cyclic_overrides : OverrideMap := [("a/", "b/"), ("b/", "a/")]

/-- One unfolding of the resolver on the cyclic mapping at `a/`. -/
theorem resolve_cyc_step_a (n : Nat) :
    resolve_scope_overrides cyclic_overrides (n + 1) "a/" =
      (resolve_scope_overrides cyclic_overrides n "b/").map
        (fun r => r ++ "") := rfl

/-- One unfolding of the resolver on the cyclic mapping at `b/`. -/
theorem resolve_cyc_step_b (n : Nat) :
    resolve_scope_overrides cyclic_overrides (n + 1) "b/" =
      (resolve_scope_overrides cyclic_overrides n "a/").map
        (fun r => r ++ "") := rfl

/-- One unfolding of the resolver on the cyclic mapping at `a`. -/
theorem resolve_cyc_step_bare (n : Nat) :
    resolve_scope_overrides cyclic_overrides (n + 1) "a" =
      (resolve_scope_overrides cyclic_overrides n "b/").map
        (fun r => r ++ "") := rfl

/-- On the cyclic mapping, no recursion depth resolves `a/` or `b/`. -/
theorem resolve_cyc_none :
    ∀ n : Nat, resolve_scope_overrides cyclic_overrides n "a/" = none ∧
      resolve_scope_overrides cyclic_overrides n "b/" = none := by
  intro n
  induction n with
  | zero => exact ⟨rfl, rfl⟩
  | succ k ih =>
    refine ⟨?_, ?_⟩
    · rw [resolve_cyc_step_a k, ih.2]; rfl
    · rw [resolve_cyc_step_b k, ih.1]; rfl

/-- When no running prefix of the remaining segments hits the
dictionary, the scan loop keeps its incoming best pair. -/
theorem scan_no_hit (m : OverrideMap) :
    ∀ (subs : List String) (cur : String) (idx : Nat)
      (best : String) (best_idx : Nat),
      (∀ q ∈ scanned_prefixes cur subs, dict_lookup m q = none) →
      scan_overrides m subs cur idx best best_idx = (best, best_idx) := by
  intro subs
  induction subs with
  | nil => intro cur idx best best_idx _; rfl
  | cons s rest ih =>
    intro cur idx best best_idx h
    have hhead : dict_lookup m (cur ++ s ++ sep_string) = none :=
      h _ (by simp [scanned_prefixes])
    have htail : ∀ q ∈ scanned_prefixes (cur ++ s ++ sep_string) rest,
        dict_lookup m q = none := by
      intro q hq
      exact h q (by simp [scanned_prefixes, hq])
    show (match dict_lookup m (cur ++ s ++ sep_string) with
      | some tgt =>
          scan_overrides m rest (cur ++ s ++ sep_string) (idx + 1) tgt idx
      | none =>
          scan_overrides m rest (cur ++ s ++ sep_string) (idx + 1)
            best best_idx) = (best, best_idx)
    rw [hhead]
    exact ih _ _ _ _ htail

/-- A rule set containing a rule whose target starts with its alias
makes the validation loop fault, whatever has been accumulated. -/
theorem build_scope_overrides_none (cs : String) :
    ∀ (rules : List (String × String)) (acc : OverrideMap),
      (∃ p ∈ rules, starts_with p.2 p.1 = true) →
      build_scope_overrides cs rules acc = none := by
  intro rules
  induction rules with
  | nil => intro acc h; simp at h
  | cons p rest ih =>
    intro acc h
    show (if starts_with p.2 p.1 then none
      else build_scope_overrides cs rest
        (dict_insert acc (normalize_namescope (cs ++ p.1))
          (normalize_namescope (cs ++ p.2)))) = none
    by_cases hp : starts_with p.2 p.1 = true
    · rw [if_pos hp]
    · rw [if_neg hp]
      rcases h with ⟨q, hq, hqs⟩
      rcases List.mem_cons.1 hq with rfl | hqrest
      · exact absurd hqs hp
      · exact ih _ ⟨q, hqrest, hqs⟩

/-- The single-rule override of the design notes, as registered by a
declaration of scope_b aliasing scope_a from the root scope. -/
def ovr_b_to_a : OverrideMap := [("scope_b/", "scope_a/")]

/-- The frames and states of a concrete run that enters three nested
sharing declarations from the empty context. -/
def frame_p : OverrideMap := [("p/", "q/")]

def frame_r : OverrideMap := [("r/", "s/")]

def frame_x : OverrideMap := [("x/", "y/")]

def frame_w : OverrideMap := [("w/", "z/")]

def state1 : ParameterSharingContext :=
  { scope_overrides := [("p/", "q/")], contexts := [frame_p] }

def state2 : ParameterSharingContext :=
  { scope_overrides := [("p/", "q/"), ("r/", "s/")],
    contexts := [frame_p, frame_r] }

def state3 : ParameterSharingContext :=
  { scope_overrides := [("p/", "q/"), ("r/", "s/"), ("x/", "y/")],
    contexts := [frame_p, frame_r, frame_x] }

/-- The state a faulting `pop` of `state3` leaves behind: the frame is
gone from the stack but the live dictionary was never rebuilt. -/
def state4 : ParameterSharingContext :=
  { scope_overrides := [("p/", "q/"), ("r/", "s/"), ("x/", "y/")],
    contexts := [frame_p, frame_r] }

/-- The state a further declaration entered on `state4` produces. -/
def state5 : ParameterSharingContext :=
  { scope_overrides :=
      [("p/", "q/"), ("r/", "s/"), ("x/", "y/"), ("w/", "z/")],
    contexts := [frame_p, frame_r, frame_w] }

/-- C1: as stated the claim fails on the code. With only the override
of scope_b to scope_a active, resolving the unnormalized candidate
scope_b/unshared_child returns scope_a/unshared_child WITHOUT a
trailing separator: the suffix is re-joined from the segments after the
override point and no separator is appended. -/
theorem c1_counterexample :
    Resolves ovr_b_to_a "scope_b/unshared_child" "scope_a/unshared_child" ∧
    ¬ Resolves ovr_b_to_a "scope_b/unshared_child" "scope_a/unshared_child/" := by
  constructor
  · exact ⟨2, by decide⟩
  · intro h
    have hd : ("scope_a/unshared_child" : String) = "scope_a/unshared_child/" :=
      resolves_det ⟨2, by decide⟩ h
    exact absurd hd (by decide)

/-- C1 (amended): the stated output arises for the normalized candidate
scope_b/unshared_child/ (the form the namespace source supplies): it
resolves to scope_a/unshared_child/ with the trailing separator. -/
theorem c1_amended_child_exclusion :
    Resolves ovr_b_to_a "scope_b/unshared_child/" "scope_a/unshared_child/" :=
  ⟨2, by decide⟩

/-- C2: the code contradicts the claim. Entering three nested
declarations from the empty context and exiting the innermost one makes
`pop` fault (the dictionary rebuild calls `dict` with two positional
arguments) and leave the live mapping still holding the popped frame
entry for key x/, so the mapping is not restored to its pre-entry
value. -/
theorem c2_pop_rebuild_fault :
    ParameterSharing_enter "" [("p", "q")] empty_ctx = some state1 ∧
    ParameterSharing_enter "" [("r", "s")] state1 = some state2 ∧
    ParameterSharing_enter "" [("x", "y")] state2 = some state3 ∧
    pop state3 = (some PopFault.typeFault, state4) ∧
    dict_lookup state4.scope_overrides "x/" = some "y/" ∧
    dict_lookup state2.scope_overrides "x/" = none := by decide

/-- C3: as stated the claim fails on the code. The validation is
`assert not v.startswith(k)`: it faults when the TARGET starts with the
ALIAS, not when the target is a prefix of the alias. The claimed
failing example, alias a/b with target a (the target a literal prefix
of the alias), is accepted and registered. -/
theorem c3_counterexample :
    starts_with "a/b" "a" = true ∧
    ParameterSharing_enter "" [("a/b", "a")] empty_ctx =
      some { scope_overrides := [("a/b/", "a/")],
             contexts := [[("a/b/", "a/")]] } := by decide

/-- C3 (amended): a declaration fails and registers nothing exactly
when some rule has a target that starts with its alias as a literal
prefix; the state is untouched (the entry returns no new state). -/
theorem c3_amended_rejects_alias_prefix (cs : String)
    (rules : List (String × String)) (s : ParameterSharingContext)
    (h : ∃ p ∈ rules, starts_with p.2 p.1 = true) :
    ParameterSharing_enter cs rules s = none := by
  unfold ParameterSharing_enter
  rw [build_scope_overrides_none cs rules [] h]

/-- Witness for the amended C3 at the concrete rule alias a, target
a/b. -/
theorem c3_amended_rejects_alias_prefix_witness :
    (∃ p ∈ [(("a" : String), ("a/b" : String))], starts_with p.2 p.1 = true) ∧
    ParameterSharing_enter "" [("a", "a/b")] empty_ctx = none :=
  ⟨by decide,
    c3_amended_rejects_alias_prefix "" [("a", "a/b")] empty_ctx (by decide)⟩

/-- C4: the code contradicts the claim. After the faulting `pop` of
`state3` (stale mapping, stack [frame_p, frame_r]) a further
declaration is entered; the live mapping then still holds the long
popped entry for x/ although no frame on the stack contains it, so the
mapping is not the union of the stack frames. -/
theorem c4_union_invariant_broken :
    pop state3 = (some PopFault.typeFault, state4) ∧
    ParameterSharing_enter "" [("w", "z")] state4 = some state5 ∧
    dict_lookup state5.scope_overrides "x/" = some "y/" ∧
    dict_lookup (union_of_frames state5.contexts) "x/" = none := by decide

/-- C5: multi-hop chaining. With the override of scope_b to scope_a
and, pushed later, the override of scope_b/shared_child back to
scope_b, the candidate scope_b/shared_child resolves through both hops
to scope_a/. -/
theorem c5_multihop_chaining :
    Resolves (dict_update (dict_update [] [("scope_b/", "scope_a/")])
        [("scope_b/shared_child/", "scope_b/")])
      "scope_b/shared_child" "scope_a/" :=
  ⟨3, by decide⟩

/-- C6: on the two-hop cyclic mapping the resolution of a matching
candidate never terminates: no recursion depth produces a result, so no
value is ever resolved. -/
theorem c6_cycle_divergence :
    (∀ fuel : Nat,
      resolve_scope_overrides cyclic_overrides fuel "a" = none) ∧
    ∀ r : String, ¬ Resolves cyclic_overrides "a" r := by
  have hall : ∀ fuel : Nat,
      resolve_scope_overrides cyclic_overrides fuel "a" = none := by
    intro fuel
    cases fuel with
    | zero => rfl
    | succ k => rw [resolve_cyc_step_bare k, (resolve_cyc_none k).2]; rfl
  refine ⟨hall, ?_⟩
  rintro r ⟨n, hn⟩
  rw [hall n] at hn
  cases hn

/-- C7: the public entry. Declaring the rule b aliasing a from the root
scope registers the override of b/ to a/; the candidate b resolves to
a/ with the trailing separator, and get_parameter_name of w under the
active namespace b/ returns a/w. -/
theorem c7_get_parameter_name_entry :
    build_scope_overrides "" [("b", "a")] [] = some [("b/", "a/")] ∧
    Resolves [("b/", "a/")] "b" "a/" ∧
    ReturnsParameterName [("b/", "a/")] "b/" "w" "a/w" :=
  ⟨by decide, ⟨2, by decide⟩, ⟨2, by decide⟩⟩

/-- C8: a declaration containing a rule whose target starts with its
alias as a literal prefix faults in the validation loop, before any
rule set is even built, so nothing is ever pushed onto the stack. -/
theorem c8_validation_before_push (cs k v : String)
    (rules : List (String × String)) (s : ParameterSharingContext)
    (hmem : (k, v) ∈ rules) (hsw : starts_with v k = true) :
    build_scope_overrides cs rules [] = none ∧
    ParameterSharing_enter cs rules s = none := by
  have hb := build_scope_overrides_none cs rules [] ⟨(k, v), hmem, hsw⟩
  refine ⟨hb, ?_⟩
  unfold ParameterSharing_enter
  rw [hb]

/-- Witness for C8 at the concrete rule alias a, target a/b. -/
theorem c8_validation_before_push_witness :
    ((("a" : String), ("a/b" : String)) ∈ [(("a" : String), ("a/b" : String))] ∧
      starts_with "a/b" "a" = true) ∧
    build_scope_overrides "" [("a", "a/b")] [] = none ∧
    ParameterSharing_enter "" [("a", "a/b")] empty_ctx = none :=
  ⟨⟨by decide, by decide⟩,
    c8_validation_before_push "" "a" "a/b" [("a", "a/b")] empty_ctx
      (by decide) (by decide)⟩

/-- C9: identity base case. When no running prefix of the candidate is
a key of the override dictionary, the scan finds no override point and
the candidate is returned unchanged. -/
theorem c9_no_override_identity (m : OverrideMap) (p : String)
    (h : ∀ q ∈ scanned_prefixes "" (split_scope p), dict_lookup m q = none) :
    Resolves m p p := by
  refine ⟨1, ?_⟩
  rw [resolve_step m 0 p, scan_no_hit m (split_scope p) "" 0 p 0 h]
  simp

/-- Witness for C9 at the candidate c/d against the override of b/. -/
theorem c9_no_override_identity_witness :
    (∀ q ∈ scanned_prefixes "" (split_scope "c/d"),
      dict_lookup [("b/", "a/")] q = none) ∧
    Resolves [("b/", "a/")] "c/d" "c/d" :=
  ⟨by decide, c9_no_override_identity [("b/", "a/")] "c/d" (by decide)⟩

/-- C10: normalization preserves the empty path, so a rule with an
empty target declared at the root scope maps its alias prefix to the
root namespace, and a name resolved through it carries no leading
separator. -/
theorem c10_normalize_empty_root :
    normalize_namescope "" = "" ∧
    build_scope_overrides "" [("b", "")] [] = some [("b/", "")] ∧
    ReturnsParameterName [("b/", "")] "b/" "w" "w" :=
  ⟨by decide, by decide, ⟨2, by decide⟩⟩
